import Mathlib

set_option linter.dupNamespace false
set_option linter.unusedVariables false

/-!
The node `nuitrack_core`: user-presence bookkeeping, frame assembly and the update loop

A shallow embedding of `src/nuitrack_core/src/nuitrack_core.cpp`.

* The publishers of the node are modelled by one output log, `published`, which
  records every published message together with the topic it went to, in
  publication order.
* The vendor engine is modelled by an oracle (`Engine`) that says, for the
  calls made during one tick, which user notifications they deliver to the
  registered callbacks and which of them raise which exception.
  Vendor calls whose exceptions the source does not catch are taken not to throw.
* `assert(false)` is modelled as the abort of the process.
* `int` arithmetic on frame sizes wraps at 32 bits; time stamps are left out.
* Floating-point scalars are kept abstract: the code is embedded over an
  arbitrary scalar type carrying the operations the source applies to it.
-/

namespace NuitrackRos

/-! ## Messages and node state -/

/-- The message `nuitrack_msgs::EventUserUpdate`: the id that triggered the event and the
roster of user ids. -/
structure EventUserUpdate where
  key_id : Int
  user_ids : List Int
deriving DecidableEq, Repr

/-- A message handed to one of the two event publishers. -/
inductive Published where
  | person_appeared (msg : EventUserUpdate)
  | person_disappeared (msg : EventUserUpdate)
deriving DecidableEq, Repr

/-- The member `ros::Timer timer_`: whether it is started, and its period in seconds. -/
structure Timer where
  started : Bool
  period : ℚ
deriving DecidableEq, Repr

/-- The members of `class NuitrackCore` that the modelled methods read or write.
`published` is the log of the messages given to `pub_event_person_appeared_` and
`pub_event_person_disappeared_`. -/
structure NuitrackCore where
  timer_ : Timer
  width_ : Nat
  height_ : Nat
  current_user_list_ : List Int
  published : List Published
deriving DecidableEq, Repr

/-! ## Presence tracker: `onNewUser`, `onLostUser` -/

/-- `NuitrackCore::onNewUser`: `push_back` the id, then publish `{id, roster}` on the
person-appeared topic. -/
def onNewUser (s : NuitrackCore) (id : Int) : NuitrackCore :=
  let roster := s.current_user_list_ ++ [id]
  { s with
    current_user_list_ := roster
    published := s.published ++ [Published.person_appeared ⟨id, roster⟩] }

/-- The `for` loop of `NuitrackCore::onLostUser`, with `remaining` iterations left and loop
index `i`: at the first index holding `id` the entry is erased and `found_exist` is set.
Returns the roster and `found_exist`. -/
def onLostUserLoop (id : Int) (l : List Int) : (remaining : Nat) → (i : Nat) → List Int × Bool
  | 0, _ => (l, false)
  | n + 1, i =>
    if l[i]? = some id then (l.eraseIdx i, true)
    else onLostUserLoop id l n (i + 1)

/-- `NuitrackCore::onLostUser`: scan the roster for `id`; return without publishing when it
is absent, otherwise publish `{id, roster}` on the person-disappeared topic. -/
def onLostUser (s : NuitrackCore) (id : Int) : NuitrackCore :=
  let r := onLostUserLoop id s.current_user_list_ s.current_user_list_.length 0
  if !r.2 then { s with current_user_list_ := r.1 }
  else
    { s with
      current_user_list_ := r.1
      published := s.published ++ [Published.person_disappeared ⟨id, r.1⟩] }

/-- A vendor notification delivered to the presence tracker. -/
inductive Notification where
  | appear (id : Int)
  | disappear (id : Int)
deriving DecidableEq, Repr

/-- Dispatch of one notification to the callback registered for it
(`connectOnNewUser` / `connectOnLostUser`). -/
def notify (s : NuitrackCore) : Notification → NuitrackCore
  | Notification.appear id => onNewUser s id
  | Notification.disappear id => onLostUser s id

/-- The message carried by a published event. -/
def Published.msg : Published → EventUserUpdate
  | Published.person_appeared m => m
  | Published.person_disappeared m => m

/-- Delivery of a sequence of notifications, one after the other. -/
def notifyAll (s : NuitrackCore) (ns : List Notification) : NuitrackCore :=
  ns.foldl notify s

/-- The members as default-constructed, before the body of the constructor runs: the
timer is not started, the roster is an empty vector and nothing has been published. -/
def fresh : NuitrackCore :=
  { timer_ := ⟨false, 0⟩, width_ := 0, height_ := 0, current_user_list_ := [], published := [] }

/-! ## Color assembler: `onNewRGBFrame` -/

/-- An unsigned 32-bit value (`uint32_t` fields of `sensor_msgs::Image`). -/
def u32 (n : Nat) : Nat := n % 2 ^ 32

/-- The vendor pixel type `Color3`: three `uint8_t` components, read by name. -/
structure Color3 where
  blue : Nat
  green : Nat
  red : Nat
deriving DecidableEq, Repr, Inhabited

/-- A vendor colour frame: `getCols()`, `getRows()` and the pixels behind `getData()`. -/
structure RGBFrame where
  cols : Nat
  rows : Nat
  data : List Color3
deriving DecidableEq, Repr

/-- The fields of `sensor_msgs::Image` set by the code (the time stamp is left out). -/
structure Image where
  width : Nat
  height : Nat
  encoding : String
  is_bigendian : Nat
  step : Nat
  data : List Nat
deriving DecidableEq, Repr

/-- The copy loop of `onNewRGBFrame`, with `remaining` iterations left and loop index `i`:
`data[i*3+0] = colorPtr[i].blue; data[i*3+1] = colorPtr[i].green; data[i*3+2] = colorPtr[i].red`. -/
def onNewRGBFrameLoop (colorPtr : List Color3) : (remaining : Nat) → (i : Nat) → List Nat → List Nat
  | 0, _, data => data
  | n + 1, i, data =>
    let c := colorPtr.getD i default
    let data := data.set (i * 3 + 0) c.blue
    let data := data.set (i * 3 + 1) c.green
    let data := data.set (i * 3 + 2) c.red
    onNewRGBFrameLoop colorPtr n (i + 1) data

/-- `NuitrackCore::onNewRGBFrame`: the image message handed to `pub_rgb_data_`. -/
def onNewRGBFrame (frame : RGBFrame) : Image :=
  let width := u32 frame.cols
  let height := u32 frame.rows
  let data := List.replicate (u32 (u32 (width * height) * 3)) 0
  { width := width
    height := height
    encoding := "rgb8"
    is_bigendian := 0
    step := u32 (3 * frame.cols)
    data := onNewRGBFrameLoop frame.data (u32 (width * height)) 0 data }

/-! ## Depth assembler: `depthToCloud` -/

/-- The vendor type `Vector3` returned by `convertProjToRealCoords`. -/
structure Vector3 (α : Type) where
  x : α
  y : α
  z : α
deriving DecidableEq, Repr

/-- One point of the cloud: the three float fields `x`, `y`, `z` declared by
`setPointCloud2FieldsByString(1, "xyz")` (the fourth 4-byte slot of the 16-byte point is
padding). -/
structure PointXYZ (α : Type) where
  x : α
  y : α
  z : α
deriving DecidableEq, Repr

/-- The fields of `sensor_msgs::PointCloud2` set by the code (the time stamp is left out);
`points` is the data buffer seen as its sequence of points. -/
structure PointCloud2 (α : Type) where
  frame_id : String
  is_bigendian : Bool
  is_dense : Bool
  width : Nat
  height : Nat
  row_step : Nat
  point_step : Nat
  points : List (PointXYZ α)
deriving DecidableEq, Repr

/-- The loop state of `depthToCloud`: the point buffer and the positions of the three
iterators `out_x`, `out_y`, `out_z`. -/
structure CloudWriter (α : Type) where
  points : List (PointXYZ α)
  out_x : Nat
  out_y : Nat
  out_z : Nat

/-- `*out_x = v` for an iterator standing at point `i`. -/
def writeX {α : Type} (pts : List (PointXYZ α)) (i : Nat) (v : α) : List (PointXYZ α) :=
  match pts[i]? with
  | some p => pts.set i { p with x := v }
  | none => pts

/-- `*out_y = v` for an iterator standing at point `i`. -/
def writeY {α : Type} (pts : List (PointXYZ α)) (i : Nat) (v : α) : List (PointXYZ α) :=
  match pts[i]? with
  | some p => pts.set i { p with y := v }
  | none => pts

/-- `*out_z = v` for an iterator standing at point `i`. -/
def writeZ {α : Type} (pts : List (PointXYZ α)) (i : Nat) (v : α) : List (PointXYZ α) :=
  match pts[i]? with
  | some p => pts.set i { p with z := v }
  | none => pts

/-- The value a 32-bit `int` holds when the exact result of a computation is `n`
(two's-complement wrap-around). -/
def int32 (n : Int) : Int := (n + 2 ^ 31) % 2 ^ 32 - 2 ^ 31

/-- Conversion of an `int` to the 64-bit `size_t` taken by `modifier.resize`. -/
def sizeT (n : Int) : Nat := (n % 2 ^ 64).toNat

/-- Conversion of an `int` to a `uint32_t` field of `sensor_msgs::PointCloud2`. -/
def uint32 (n : Int) : Nat := (n % 2 ^ 32).toNat

/-- The read `depth[i]` for an `int` index `i`: the sample at `i` when the buffer has one
(0 stands for a read outside the buffer). -/
def readDepth (depth : List Nat) (i : Int) : Nat :=
  if 0 ≤ i then depth.getD i.toNat 0 else 0

/-- The body of the inner loop of `depthToCloud` at row `h`, column `w`; the index
`h * width + w` is computed in `int`. -/
def depthToCloudBody {α : Type} [Neg α] [Div α] [OfNat α 1000]
    (convertProjToRealCoords : Nat → Nat → Nat → Vector3 α) (width : Int) (depth : List Nat)
    (h w : Nat) (st : CloudWriter α) : CloudWriter α :=
  let data := convertProjToRealCoords w h
    (readDepth depth (int32 (int32 ((h : Int) * width) + (w : Int))))
  let pts := writeX st.points st.out_x (data.z / 1000)
  let pts := writeY pts st.out_y (-data.x / 1000)
  let pts := writeZ pts st.out_z (data.y / 1000)
  { points := pts, out_x := st.out_x + 1, out_y := st.out_y + 1, out_z := st.out_z + 1 }

/-- `NuitrackCore::depthToCloud(int width, int height, const uint16_t* depth)`: resize the
cloud to `width * height` zeroed points, the product being computed in `int`, then fill it
row by row through the three iterators (`for (int h = 0; h < height; h++)`,
`for (int w = 0; w < width; w++)`). -/
def depthToCloud {α : Type} [Zero α] [Neg α] [Div α] [OfNat α 1000]
    (convertProjToRealCoords : Nat → Nat → Nat → Vector3 α) (width height : Int)
    (depth : List Nat) : PointCloud2 α :=
  let init : CloudWriter α :=
    { points := List.replicate (sizeT (int32 (width * height))) ⟨0, 0, 0⟩
      out_x := 0, out_y := 0, out_z := 0 }
  let final := (List.range height.toNat).foldl
    (fun st h => (List.range width.toNat).foldl
      (fun st w => depthToCloudBody convertProjToRealCoords width depth h w st) st) init
  { frame_id := "nuitrack_link"
    is_bigendian := false
    is_dense := false
    width := uint32 width
    height := uint32 height
    row_step := uint32 (int32 (16 * width))
    point_step := 16
    points := final.points }

/-- The axis remap applied to one vendor point: `(z / 1000, -x / 1000, y / 1000)`. -/
def remap {α : Type} [Neg α] [Div α] [OfNat α 1000] (v : Vector3 α) : PointXYZ α :=
  ⟨v.z / 1000, -v.x / 1000, v.y / 1000⟩

/-- A projection used to exercise `depthToCloud` on concrete frames: it scales the pixel
coordinates by the depth. -/
def sampleProj (c r d : Nat) : Vector3 ℚ := ⟨(c : ℚ) * d, (r : ℚ) * d, d⟩

/-! ## Skeleton assembler: `JOINT_NAMES`, `onSkeletonUpdate` -/

/-- The twenty vendor joint constants used as keys of `JOINT_NAMES`, in the order in which
the initialiser lists them. -/
inductive JointType where
  | JOINT_HEAD | JOINT_NECK | JOINT_TORSO | JOINT_WAIST
  | JOINT_LEFT_COLLAR | JOINT_LEFT_SHOULDER | JOINT_LEFT_ELBOW | JOINT_LEFT_WRIST
  | JOINT_LEFT_HAND
  | JOINT_RIGHT_COLLAR | JOINT_RIGHT_SHOULDER | JOINT_RIGHT_ELBOW | JOINT_RIGHT_WRIST
  | JOINT_RIGHT_HAND
  | JOINT_LEFT_HIP | JOINT_LEFT_KNEE | JOINT_LEFT_ANKLE
  | JOINT_RIGHT_HIP | JOINT_RIGHT_KNEE | JOINT_RIGHT_ANKLE
deriving DecidableEq, Repr

/-- The initialiser list of `JOINT_NAMES`, as written in the source. -/
def jointNamesInit : List (JointType × String) :=
  [(JointType.JOINT_HEAD, "joint_head"), (JointType.JOINT_NECK, "joint_neck"), (JointType.JOINT_TORSO, "joint_torso"),
   (JointType.JOINT_WAIST, "joint_waist"),
   (JointType.JOINT_LEFT_COLLAR, "joint_left_collar"), (JointType.JOINT_LEFT_SHOULDER, "joint_left_shoulder"),
   (JointType.JOINT_LEFT_ELBOW, "joint_left_elbow"), (JointType.JOINT_LEFT_WRIST, "joint_left_wrist"),
   (JointType.JOINT_LEFT_HAND, "joint_left_hand"),
   (JointType.JOINT_RIGHT_COLLAR, "joint_right_collar"), (JointType.JOINT_RIGHT_SHOULDER, "joint_right_shoulder"),
   (JointType.JOINT_RIGHT_ELBOW, "joint_right_elbow"), (JointType.JOINT_RIGHT_WRIST, "joint_right_wrist"),
   (JointType.JOINT_RIGHT_HAND, "joint_right_hand"),
   (JointType.JOINT_LEFT_HIP, "joint_left_hip"), (JointType.JOINT_LEFT_KNEE, "joint_left_knee"),
   (JointType.JOINT_LEFT_ANKLE, "joint_left_ankle"),
   (JointType.JOINT_RIGHT_HIP, "joint_right_hip"), (JointType.JOINT_RIGHT_KNEE, "joint_right_knee"),
   (JointType.JOINT_RIGHT_ANKLE, "joint_right_ankle")]

/-- Insertion of one entry into a `std::map<int, std::string>`, kept as its key-ordered
entry list: an entry whose key is already present is not inserted. -/
def stdMapInsert (e : Int × String) : List (Int × String) → List (Int × String)
  | [] => [e]
  | x :: rest =>
    if e.1 < x.1 then e :: x :: rest
    else if e.1 = x.1 then x :: rest
    else x :: stdMapInsert e rest

/-- Construction of a `std::map<int, std::string>` from an initialiser list. -/
def stdMapOfList (init : List (Int × String)) : List (Int × String) :=
  init.foldl (fun m e => stdMapInsert e m) []

/-- The global `JOINT_NAMES`, as the key-ordered entry list a range-`for` visits. The
integer value of each vendor joint constant is given by `code`. -/
def JOINT_NAMES (code : JointType → Int) : List (Int × String) :=
  stdMapOfList (jointNamesInit.map (fun e => (code e.1, e.2)))

/-- The components of a vendor `Joint` that the code reads; `M` is the type of the
orientation matrix. -/
structure Joint (α M : Type) where
  confidence : α
  real : Vector3 α
  orient : M

/-- A vendor `Skeleton`: its id and its joints, indexed by the integer joint constant. -/
structure Skeleton (α M : Type) where
  id : Int
  joints : Int → Joint α M

/-- The message type `geometry_msgs::Quaternion`. -/
structure Quaternion (α : Type) where
  x : α
  y : α
  z : α
  w : α
deriving DecidableEq, Repr

/-- The message type `geometry_msgs::Pose`. -/
structure Pose (α : Type) where
  position : Vector3 α
  orientation : Quaternion α
deriving DecidableEq, Repr

/-- The message `nuitrack_msgs::SkeletonData`. -/
structure SkeletonData (α : Type) where
  id : Int
  joints : List String
  confidences : List α
  joint_pose : List (Pose α)
deriving DecidableEq, Repr

/-- The body of the loop over `JOINT_NAMES` in `onSkeletonUpdate` for map entry `j`. -/
def onSkeletonUpdateJoint {α M : Type} (mRot2Quat : M → Fin 4 → α) (sk : Skeleton α M)
    (data : SkeletonData α) (j : Int × String) : SkeletonData α :=
  let joint := sk.joints j.1
  let quat := mRot2Quat joint.orient
  let pose : Pose α :=
    { position := ⟨joint.real.x, joint.real.y, joint.real.z⟩
      orientation := { w := quat 0, x := quat 1, y := quat 2, z := quat 3 } }
  { data with
    joints := data.joints ++ [j.2]
    confidences := data.confidences ++ [joint.confidence]
    joint_pose := data.joint_pose ++ [pose] }

/-- `NuitrackCore::onSkeletonUpdate`: the `skeletons` field of the message handed to
`pub_skeleton_data_`, one entry per tracked skeleton. -/
def onSkeletonUpdate {α M : Type} (code : JointType → Int) (mRot2Quat : M → Fin 4 → α)
    (skeletons : List (Skeleton α M)) : List (SkeletonData α) :=
  skeletons.foldl
    (fun msg sk =>
      let data : SkeletonData α := { id := sk.id, joints := [], confidences := [], joint_pose := [] }
      msg ++ [(JOINT_NAMES code).foldl (onSkeletonUpdateJoint mRot2Quat sk) data])
    []

/-- The joints of the fixed joint set, in declared order. -/
def jointOrder : List JointType := jointNamesInit.map Prod.fst

/-- The integer values of the joint constants in the vendor SDK header
(`nuitrack/types/Skeleton.h`, which leaves 10, 16, 20 and 24 to the fingertips and feet). -/
def sdkJointCode : JointType → Int
  | JointType.JOINT_HEAD => 1
  | JointType.JOINT_NECK => 2
  | JointType.JOINT_TORSO => 3
  | JointType.JOINT_WAIST => 4
  | JointType.JOINT_LEFT_COLLAR => 5
  | JointType.JOINT_LEFT_SHOULDER => 6
  | JointType.JOINT_LEFT_ELBOW => 7
  | JointType.JOINT_LEFT_WRIST => 8
  | JointType.JOINT_LEFT_HAND => 9
  | JointType.JOINT_RIGHT_COLLAR => 11
  | JointType.JOINT_RIGHT_SHOULDER => 12
  | JointType.JOINT_RIGHT_ELBOW => 13
  | JointType.JOINT_RIGHT_WRIST => 14
  | JointType.JOINT_RIGHT_HAND => 15
  | JointType.JOINT_LEFT_HIP => 17
  | JointType.JOINT_LEFT_KNEE => 18
  | JointType.JOINT_LEFT_ANKLE => 19
  | JointType.JOINT_RIGHT_HIP => 21
  | JointType.JOINT_RIGHT_KNEE => 22
  | JointType.JOINT_RIGHT_ANKLE => 23

/-- A skeleton used to exercise `onSkeletonUpdate`: joint `k` has confidence `k` and sits at
`(k, 2k, 3k)`. -/
def sampleSkeleton : Skeleton Int Unit :=
  { id := 1, joints := fun k => { confidence := k, real := ⟨k, 2 * k, 3 * k⟩, orient := () } }

/-! ## Update loop and session lifecycle: constructor, `reset`, `timerCallback` -/

/-- The four modules advanced by a tick. -/
inductive Subsystem where
  | colorSensor | depthSensor | userTracker | skeletonTracker
deriving DecidableEq, Repr

/-- How one call of `Nuitrack::update` ends: normally, with a
`LicenseNotAcquiredException`, or with another `tdv::nuitrack::Exception`. -/
inductive UpdateResult where
  | ok | licenseNotAcquired | otherException
deriving DecidableEq, Repr

/-- The behaviour of the vendor engine during one tick: how each `Nuitrack::update` ends,
which user notifications it delivers to the registered callbacks before it ends, whether
`Nuitrack::init` and `Nuitrack::run` throw, and the colour output mode. -/
structure Engine where
  update : Subsystem → UpdateResult
  delivered : Subsystem → List Notification
  initThrows : Bool
  runThrows : Bool
  xres : Nat
  yres : Nat

/-- The process after a method returns: still running with the given members, or aborted
by `assert(false)`. -/
inductive Outcome where
  | running (s : NuitrackCore)
  | aborted
deriving DecidableEq, Repr

/-- The argument of `ros::Duration(1/30)`: the quotient of the two `int` literals,
converted to seconds. -/
def timerPeriod : ℚ := ((Int.tdiv 1 30 : Int) : ℚ)

/-- `nh.createTimer(ros::Duration(1/30), ...)`: a started timer with that period. -/
def createTimer : Timer := { started := true, period := timerPeriod }

/-- The constructor `NuitrackCore::NuitrackCore`, from the default-constructed members. An
exception of `Nuitrack::init` is swallowed, an exception of `Nuitrack::run` ends in
`assert(false)`. -/
def NuitrackCore.NuitrackCore (eng : Engine) : Outcome :=
  let s := fresh
  -- try { Nuitrack::init(); } catch (const Exception& e) {}
  let s := if eng.initThrows then s else s
  -- width_ = colorOutputMode.xres; height_ = colorOutputMode.yres;
  let s := { s with width_ := eng.xres, height_ := eng.yres }
  -- try { Nuitrack::run(); } catch (const Exception& e) { ...; assert(false); }
  if eng.runThrows then Outcome.aborted
  else
    -- timer_ = nh.createTimer(ros::Duration(1/30), ...);
    Outcome.running { s with timer_ := createTimer }

/-- `NuitrackCore::reset`: stop the timer, release the engine, then repeat the steps of the
constructor on the current members. -/
def reset (eng : Engine) (s : NuitrackCore) : Outcome :=
  -- timer_.stop(); Nuitrack::release();
  let s := { s with timer_ := { s.timer_ with started := false } }
  -- try { Nuitrack::init(); } catch (const Exception& e) {}
  let s := if eng.initThrows then s else s
  -- width_ = colorOutputMode.xres; height_ = colorOutputMode.yres;
  let s := { s with width_ := eng.xres, height_ := eng.yres }
  -- try { Nuitrack::run(); } catch (const Exception& e) { ...; assert(false); }
  if eng.runThrows then Outcome.aborted
  else
    -- timer_ = nh_.createTimer(ros::Duration(1/30), ...);
    Outcome.running { s with timer_ := createTimer }

/-- The `try` block of `timerCallback` over the modules still to advance: each
`Nuitrack::update` runs the callbacks of its notifications and then returns or throws.
Returns the modules for which `Nuitrack::update` was called, how the block ended, and the
members at that point. -/
def tryUpdates (eng : Engine) :
    List Subsystem → NuitrackCore → List Subsystem × UpdateResult × NuitrackCore
  | [], s => ([], UpdateResult.ok, s)
  | sub :: rest, s =>
    match eng.update sub with
    | UpdateResult.ok =>
      ((sub :: (tryUpdates eng rest (notifyAll s (eng.delivered sub))).1),
        (tryUpdates eng rest (notifyAll s (eng.delivered sub))).2)
    | e => ([sub], e, notifyAll s (eng.delivered sub))

/-- What one tick did: the modules whose advance was requested, in order, whether
`reset` was called, and the process afterwards. -/
structure Tick where
  requested : List Subsystem
  resetCalled : Bool
  outcome : Outcome
deriving DecidableEq, Repr

/-- The modules in the order of the `Nuitrack::update` calls in `timerCallback`. -/
def updateOrder : List Subsystem :=
  [Subsystem.colorSensor, Subsystem.depthSensor, Subsystem.userTracker,
   Subsystem.skeletonTracker]

/-- `NuitrackCore::timerCallback`: the four advances in a `try` block; a
`LicenseNotAcquiredException` is handled by `reset()`, any other vendor exception by
`assert(false)`. -/
def timerCallback (eng : Engine) (s : NuitrackCore) : Tick :=
  match tryUpdates eng updateOrder s with
  | (req, UpdateResult.ok, s) =>
    { requested := req, resetCalled := false, outcome := Outcome.running s }
  | (req, UpdateResult.licenseNotAcquired, s) =>
    { requested := req, resetCalled := true, outcome := reset eng s }
  | (req, UpdateResult.otherException, _) =>
    { requested := req, resetCalled := false, outcome := Outcome.aborted }

/-- The members after the callbacks fired by the advances of `requested` have run on `s`,
advance after advance. -/
def callbacksOf (eng : Engine) (requested : List Subsystem) (s : NuitrackCore) : NuitrackCore :=
  requested.foldl (fun st sub => notifyAll st (eng.delivered sub)) s

/-- Whether the process is in the `Running` state: it was not aborted and its timer is
started. -/
def Outcome.isRunning : Outcome → Bool
  | Outcome.running s => s.timer_.started
  | Outcome.aborted => false

/-- An engine whose calls all succeed. -/
def healthyEngine : Engine :=
  { update := fun _ => UpdateResult.ok, delivered := fun _ => [], initThrows := false,
    runThrows := false, xres := 848, yres := 480 }

/-- The loop invariant of `depthToCloud` after `k` pixels: the three iterators stand at
point `k`, the buffer still has `n` points, and the first `k` points are final. -/
def CloudInv {α : Type} (n : Nat) (target : Nat → PointXYZ α) (k : Nat) (st : CloudWriter α) :
    Prop :=
  st.out_x = k ∧ st.out_y = k ∧ st.out_z = k ∧ st.points.length = n ∧
    ∀ i, i < k → st.points[i]? = some (target i)

/-- The entry that `onSkeletonUpdate` is expected to build for skeleton `sk`: the table
`jointNamesInit` read in its written order. -/
def skeletonEntry {α M : Type} (code : JointType → Int) (mRot2Quat : M → Fin 4 → α)
    (sk : Skeleton α M) : SkeletonData α :=
  { id := sk.id
    joints := jointNamesInit.map Prod.snd
    confidences := jointNamesInit.map (fun e => (sk.joints (code e.1)).confidence)
    joint_pose := jointNamesInit.map (fun e =>
      { position := ⟨(sk.joints (code e.1)).real.x, (sk.joints (code e.1)).real.y,
          (sk.joints (code e.1)).real.z⟩
        orientation :=
          { w := mRot2Quat (sk.joints (code e.1)).orient 0
            x := mRot2Quat (sk.joints (code e.1)).orient 1
            y := mRot2Quat (sk.joints (code e.1)).orient 2
            z := mRot2Quat (sk.joints (code e.1)).orient 3 } }) }

/-- An engine whose first advance raises the licensing fault and whose restart fails. -/
def licenseThenRunFails : Engine :=
  { update := fun sub =>
      if sub = Subsystem.colorSensor then UpdateResult.licenseNotAcquired else UpdateResult.ok
    delivered := fun _ => []
    initThrows := false, runThrows := true, xres := 848, yres := 480 }

/-- An engine whose third advance announces user 7 and then raises the licensing fault, and
which then restarts. -/
def licenseThenRestarts : Engine :=
  { update := fun sub =>
      if sub = Subsystem.userTracker then UpdateResult.licenseNotAcquired else UpdateResult.ok
    delivered := fun sub =>
      if sub = Subsystem.userTracker then [Notification.appear 7] else []
    initThrows := false, runThrows := false, xres := 848, yres := 480 }

/-- A running node that tracks user 5. -/
def trackingFive : NuitrackCore :=
  { timer_ := createTimer, width_ := 848, height_ := 480, current_user_list_ := [5],
    published := [Published.person_appeared ⟨5, [5]⟩] }

/-! ### Helper lemmas -/

theorem onLostUserLoop_absent (id : Int) (l : List Int) (h : id ∉ l) :
    ∀ n i, onLostUserLoop id l n i = (l, false) := by
  intro n
  induction n with
  | zero => intro i; rfl
  | succ n ih =>
    intro i
    have hne : ¬ l[i]? = some id := by
      intro hi
      exact h (List.getElem?_mem hi)
    simp [onLostUserLoop, hne, ih]

theorem onLostUserLoop_present (id : Int) (l1 l2 : List Int) (h : id ∉ l1) :
    ∀ k i, i + k = l1.length →
      onLostUserLoop id (l1 ++ id :: l2) (k + 1 + l2.length) i = (l1 ++ l2, true) := by
  intro k
  induction k with
  | zero =>
    intro i hi
    have hi' : i = l1.length := by omega
    subst hi'
    have h1 : (l1 ++ id :: l2)[l1.length]? = some id := by
      rw [List.getElem?_append_right (le_refl _)]
      simp
    have h2 : (l1 ++ id :: l2).eraseIdx l1.length = l1 ++ l2 := by
      rw [List.eraseIdx_append_of_length_le (le_refl _)]
      simp
    have h3 : 0 + 1 + l2.length = l2.length + 1 := by omega
    rw [h3, onLostUserLoop, if_pos h1, h2]
  | succ k ih =>
    intro i hi
    have hlt : i < l1.length := by omega
    have h1 : (l1 ++ id :: l2)[i]? = some l1[i] := by
      rw [List.getElem?_append_left hlt]
      simp [hlt]
    have h2 : l1[i] ≠ id := by
      intro hc
      exact h (hc ▸ List.getElem_mem hlt)
    have h3 : k + 1 + 1 + l2.length = (k + 1 + l2.length) + 1 := by omega
    rw [h3]
    rw [onLostUserLoop, h1, if_neg (by simpa using h2)]
    exact ih (i + 1) (by omega)

theorem write_xyz {α : Type} (pts : List (PointXYZ α)) (k : Nat) (a b c : α)
    (hk : k < pts.length) :
    writeZ (writeY (writeX pts k a) k b) k c = pts.set k ⟨a, b, c⟩ := by
  simp [writeX, writeY, writeZ, hk]

theorem pixel_index_lt (width height h w : Nat) (hh : h < height) (hw : w < width) :
    h * width + w < width * height := by
  calc h * width + w < h * width + width := by omega
    _ = (h + 1) * width := by ring
    _ ≤ height * width := Nat.mul_le_mul_right width hh
    _ = width * height := Nat.mul_comm _ _

theorem pixel_index_mod (width h w : Nat) (hw : w < width) : (h * width + w) % width = w := by
  rw [Nat.add_comm, Nat.add_mul_mod_self_right]
  exact Nat.mod_eq_of_lt hw

theorem pixel_index_div (width h w : Nat) (hw : w < width) : (h * width + w) / width = h := by
  have hpos : 0 < width := by omega
  rw [Nat.add_comm, Nat.add_mul_div_right _ _ hpos, Nat.div_eq_of_lt hw, Nat.zero_add]

theorem int32_eq (n : Int) (h0 : 0 ≤ n) (h1 : n < 2 ^ 31) : int32 n = n := by
  unfold int32
  norm_num at h1 ⊢
  omega

theorem sizeT_natCast (n : Nat) (h : n < 2 ^ 31) : sizeT (n : Int) = n := by
  unfold sizeT
  norm_num at h ⊢
  omega

theorem depth_index_eq (width height h w : Nat) (hh : h < height) (hw : w < width)
    (hfit : width * height < 2 ^ 31) :
    int32 (int32 ((h : Int) * (width : Int)) + (w : Int)) = ((h * width + w : Nat) : Int) := by
  have hlt : h * width + w < 2 ^ 31 :=
    lt_trans (pixel_index_lt width height h w hh hw) hfit
  have h1 : ((h : Int) * (width : Int)) = ((h * width : Nat) : Int) := by push_cast; ring
  have h2 : (((h * width : Nat) : Int)) + (w : Int) = ((h * width + w : Nat) : Int) := by
    push_cast; ring
  have hlt1 : ((h * width : Nat) : Int) < 2 ^ 31 := by
    have : h * width < 2 ^ 31 := by omega
    exact_mod_cast this
  have hlt2 : ((h * width + w : Nat) : Int) < 2 ^ 31 := by exact_mod_cast hlt
  rw [h1, int32_eq _ (Int.natCast_nonneg _) hlt1, h2, int32_eq _ (Int.natCast_nonneg _) hlt2]

theorem readDepth_natCast (depth : List Nat) (n : Nat) :
    readDepth depth (n : Int) = depth.getD n 0 := by
  simp [readDepth]

theorem depthToCloudBody_inv {α : Type} [Neg α] [Div α] [OfNat α 1000]
    (proj : Nat → Nat → Nat → Vector3 α) (width height : Nat) (depth : List Nat)
    (hfit : width * height < 2 ^ 31)
    (h w : Nat) (hh : h < height) (hw : w < width) (st : CloudWriter α)
    (hst : CloudInv (width * height)
      (fun i => remap (proj (i % width) (i / width) (depth.getD i 0))) (h * width + w) st) :
    CloudInv (width * height)
      (fun i => remap (proj (i % width) (i / width) (depth.getD i 0))) (h * width + w + 1)
      (depthToCloudBody proj (width : Int) depth h w st) := by
  obtain ⟨hx, hy, hz, hlen, hpts⟩ := hst
  have hk : h * width + w < st.points.length := by
    rw [hlen]; exact pixel_index_lt width height h w hh hw
  have hbody : (depthToCloudBody proj (width : Int) depth h w st).points
      = st.points.set (h * width + w) (remap (proj w h (depth.getD (h * width + w) 0))) := by
    simp only [depthToCloudBody, hx, hy, hz]
    rw [write_xyz _ _ _ _ _ hk, depth_index_eq width height h w hh hw hfit, readDepth_natCast]
    rfl
  refine ⟨by simp [depthToCloudBody, hx], by simp [depthToCloudBody, hy],
    by simp [depthToCloudBody, hz], by rw [hbody, List.length_set, hlen], ?_⟩
  intro i hi
  rw [hbody]
  by_cases hik : i = h * width + w
  · subst hik
    rw [List.getElem?_set_self hk]
    dsimp only
    rw [pixel_index_mod width h w hw, pixel_index_div width h w hw]
  · rw [List.getElem?_set_ne (fun hc => hik hc.symm)]
    exact hpts i (by omega)

theorem depthToCloud_row_inv {α : Type} [Neg α] [Div α] [OfNat α 1000]
    (proj : Nat → Nat → Nat → Vector3 α) (width height : Nat) (depth : List Nat)
    (hfit : width * height < 2 ^ 31)
    (h : Nat) (hh : h < height) (st : CloudWriter α)
    (hst : CloudInv (width * height)
      (fun i => remap (proj (i % width) (i / width) (depth.getD i 0))) (h * width) st) :
    ∀ c, c ≤ width →
      CloudInv (width * height)
        (fun i => remap (proj (i % width) (i / width) (depth.getD i 0))) (h * width + c)
        ((List.range c).foldl
          (fun st w => depthToCloudBody proj (width : Int) depth h w st) st) := by
  intro c
  induction c with
  | zero => intro _; simpa using hst
  | succ c ih =>
    intro hc
    rw [List.range_succ, List.foldl_append]
    exact depthToCloudBody_inv proj width height depth hfit h c hh (by omega) _ (ih (by omega))

theorem depthToCloud_rows_inv {α : Type} [Zero α] [Neg α] [Div α] [OfNat α 1000]
    (proj : Nat → Nat → Nat → Vector3 α) (width height : Nat) (depth : List Nat)
    (hfit : width * height < 2 ^ 31) :
    ∀ r, r ≤ height →
      CloudInv (width * height)
        (fun i => remap (proj (i % width) (i / width) (depth.getD i 0))) (r * width)
        ((List.range r).foldl
          (fun st h => (List.range width).foldl
            (fun st w => depthToCloudBody proj (width : Int) depth h w st) st)
          { points := List.replicate (width * height) ⟨0, 0, 0⟩,
            out_x := 0, out_y := 0, out_z := 0 }) := by
  intro r
  induction r with
  | zero =>
    intro _
    refine ⟨by simp, by simp, by simp, by simp, ?_⟩
    intro i hi
    omega
  | succ r ih =>
    intro hr
    rw [List.range_succ, List.foldl_append]
    have hrow := depthToCloud_row_inv proj width height depth hfit r (by omega) _
      (ih (by omega)) width (le_refl _)
    have e : (r + 1) * width = r * width + width := by ring
    rw [e]
    simpa using hrow

theorem write_length {α : Type} (pts : List (PointXYZ α)) (i : Nat) (v : α) :
    (writeX pts i v).length = pts.length ∧ (writeY pts i v).length = pts.length ∧
      (writeZ pts i v).length = pts.length := by
  refine ⟨?_, ?_, ?_⟩
  · unfold writeX; split <;> simp
  · unfold writeY; split <;> simp
  · unfold writeZ; split <;> simp

theorem depthToCloudBody_length {α : Type} [Neg α] [Div α] [OfNat α 1000]
    (proj : Nat → Nat → Nat → Vector3 α) (width : Int) (depth : List Nat)
    (h w : Nat) (st : CloudWriter α) :
    (depthToCloudBody proj width depth h w st).points.length = st.points.length := by
  simp only [depthToCloudBody]
  rw [(write_length _ _ _).2.2, (write_length _ _ _).2.1, (write_length _ _ _).1]

theorem foldl_length_inv {α β : Type} (f : CloudWriter α → β → CloudWriter α)
    (hf : ∀ st b, (f st b).points.length = st.points.length) :
    ∀ (l : List β) (st : CloudWriter α), (l.foldl f st).points.length = st.points.length := by
  intro l
  induction l with
  | nil => intro st; rfl
  | cons b rest ih => intro st; rw [List.foldl_cons, ih, hf]

theorem depthToCloud_points_length {α : Type} [Zero α] [Neg α] [Div α] [OfNat α 1000]
    (proj : Nat → Nat → Nat → Vector3 α) (width height : Int) (depth : List Nat) :
    (depthToCloud proj width height depth).points.length = sizeT (int32 (width * height)) := by
  unfold depthToCloud
  dsimp only
  rw [foldl_length_inv _ (fun st h => foldl_length_inv _
    (fun st w => depthToCloudBody_length proj width depth h w st) _ st)]
  exact List.length_replicate _ _

theorem stdMapInsert_last (e : Int × String) :
    ∀ m : List (Int × String), (∀ x ∈ m, x.1 < e.1) → stdMapInsert e m = m ++ [e] := by
  intro m
  induction m with
  | nil => intro _; rfl
  | cons x rest ih =>
    intro hm
    have hx : x.1 < e.1 := hm x (List.mem_cons_self _ _)
    have h1 : ¬ e.1 < x.1 := by omega
    have h2 : ¬ e.1 = x.1 := by omega
    rw [stdMapInsert, if_neg h1, if_neg h2,
      ih (fun y hy => hm y (List.mem_cons_of_mem _ hy))]
    rfl

theorem stdMapOfList_sorted :
    ∀ init : List (Int × String), (init.map Prod.fst).Pairwise (· < ·) →
      stdMapOfList init = init := by
  intro init
  induction init using List.reverseRecOn with
  | nil => intro _; rfl
  | append_singleton l e ih =>
    intro h
    rw [List.map_append, List.pairwise_append] at h
    obtain ⟨hl, _, hle⟩ := h
    have hfold : stdMapOfList (l ++ [e]) = stdMapInsert e (stdMapOfList l) := by
      simp [stdMapOfList, List.foldl_append]
    rw [hfold, ih hl]
    apply stdMapInsert_last
    intro x hx
    exact hle x.1 (List.mem_map_of_mem _ hx) e.1 (by simp)

theorem JOINT_NAMES_declared (code : JointType → Int)
    (hcode : (jointOrder.map code).Pairwise (· < ·)) :
    JOINT_NAMES code = jointNamesInit.map (fun e => (code e.1, e.2)) := by
  apply stdMapOfList_sorted
  have e : (jointNamesInit.map (fun e => (code e.1, e.2))).map Prod.fst = jointOrder.map code := by
    simp [jointOrder, List.map_map, Function.comp_def]
  rw [e]
  exact hcode

theorem onSkeletonUpdateJoint_foldl {α M : Type} (mRot2Quat : M → Fin 4 → α)
    (sk : Skeleton α M) :
    ∀ (l : List (Int × String)) (data : SkeletonData α),
      l.foldl (onSkeletonUpdateJoint mRot2Quat sk) data =
        { id := data.id
          joints := data.joints ++ l.map Prod.snd
          confidences := data.confidences ++ l.map (fun j => (sk.joints j.1).confidence)
          joint_pose := data.joint_pose ++ l.map (fun j =>
            { position := ⟨(sk.joints j.1).real.x, (sk.joints j.1).real.y,
                (sk.joints j.1).real.z⟩
              orientation :=
                { w := mRot2Quat (sk.joints j.1).orient 0
                  x := mRot2Quat (sk.joints j.1).orient 1
                  y := mRot2Quat (sk.joints j.1).orient 2
                  z := mRot2Quat (sk.joints j.1).orient 3 } }) } := by
  intro l
  induction l with
  | nil => intro data; simp
  | cons j rest ih =>
    intro data
    rw [List.foldl_cons, ih]
    simp [onSkeletonUpdateJoint]

theorem onSkeletonUpdate_foldl {α M : Type} (f : Skeleton α M → SkeletonData α) :
    ∀ (l : List (Skeleton α M)) (acc : List (SkeletonData α)),
      l.foldl (fun msg sk => msg ++ [f sk]) acc = acc ++ l.map f := by
  intro l
  induction l with
  | nil => intro acc; simp
  | cons sk rest ih => intro acc; rw [List.foldl_cons, ih]; simp

theorem onSkeletonUpdate_eq_map {α M : Type} (code : JointType → Int)
    (hcode : (jointOrder.map code).Pairwise (· < ·)) (mRot2Quat : M → Fin 4 → α)
    (skeletons : List (Skeleton α M)) :
    onSkeletonUpdate code mRot2Quat skeletons
      = skeletons.map (skeletonEntry code mRot2Quat) := by
  unfold onSkeletonUpdate
  rw [onSkeletonUpdate_foldl (fun sk =>
    (JOINT_NAMES code).foldl (onSkeletonUpdateJoint mRot2Quat sk)
      { id := sk.id, joints := [], confidences := [], joint_pose := [] })]
  rw [List.nil_append]
  apply List.map_congr_left
  intro sk _
  rw [JOINT_NAMES_declared code hcode, onSkeletonUpdateJoint_foldl]
  simp [skeletonEntry, List.map_map, Function.comp_def]

/-! ## The claims -/

/-- C1, as stated, fails: for the `int` arguments width 65536 and height 65536 and a depth
buffer of `65536 * 65536` samples, the product `width * height` wraps to 0 in `int`, the
cloud is resized to 0 points and so does not have `65536 * 65536` points. -/
theorem depthToCloud_overflow :
    (List.replicate (65536 * 65536) 0).length = 65536 * 65536 ∧
    (depthToCloud sampleProj 65536 65536 (List.replicate (65536 * 65536) 0)).points.length = 0 ∧
    (depthToCloud sampleProj 65536 65536 (List.replicate (65536 * 65536) 0)).points.length
      ≠ 65536 * 65536 := by
  have h0 : sizeT (int32 (65536 * 65536)) = 0 := by
    norm_num [sizeT, int32]
  refine ⟨List.length_replicate _ _, ?_, ?_⟩
  · rw [depthToCloud_points_length, h0]
  · rw [depthToCloud_points_length, h0]
    norm_num

/-- C1, amended. For every `int` width `w >= 0` and height `h >= 0` whose product `w * h`
fits a 32-bit `int` (`w * h < 2 ^ 31`), every depth buffer of `w * h` samples and every
projection `proj`, `depthToCloud` produces exactly `w * h` points, and for every row
`r < h` and column `c < w` the point at index `r * w + c` is
`(z / 1000, -x / 1000, y / 1000)` for `(x, y, z) = proj c r depth[r * w + c]`, whatever the
depth value (0 included). -/
theorem depthToCloud_raster {α : Type} [Zero α] [Neg α] [Div α] [OfNat α 1000]
    (proj : Nat → Nat → Nat → Vector3 α) (w h : Nat) (depth : List Nat)
    (hw : w < 2 ^ 31) (hh : h < 2 ^ 31) (hfit : w * h < 2 ^ 31)
    (hlen : depth.length = w * h) :
    (depthToCloud proj (w : Int) (h : Int) depth).points.length = w * h ∧
    ∀ r c, r < h → c < w →
      (depthToCloud proj (w : Int) (h : Int) depth).points[r * w + c]? =
        some { x := (proj c r (depth.getD (r * w + c) 0)).z / 1000
               y := -(proj c r (depth.getD (r * w + c) 0)).x / 1000
               z := (proj c r (depth.getD (r * w + c) 0)).y / 1000 } := by
  have hinv := depthToCloud_rows_inv proj w h depth hfit h (le_refl _)
  have hsize : sizeT (int32 ((w : Int) * (h : Int))) = w * h := by
    have e : ((w : Int) * (h : Int)) = ((w * h : Nat) : Int) := by push_cast; ring
    rw [e, int32_eq _ (Int.natCast_nonneg _) (by exact_mod_cast hfit), sizeT_natCast _ hfit]
  have hpoints : (depthToCloud proj (w : Int) (h : Int) depth).points =
      ((List.range h).foldl
        (fun st r => (List.range w).foldl
          (fun st c => depthToCloudBody proj (w : Int) depth r c st) st)
        { points := List.replicate (w * h) ⟨0, 0, 0⟩,
          out_x := 0, out_y := 0, out_z := 0 }).points := by
    simp only [depthToCloud, hsize, Int.toNat_ofNat]
  rw [hpoints]
  obtain ⟨_, _, _, hl, hpts⟩ := hinv
  refine ⟨hl, ?_⟩
  intro r c hr hc
  have hi : r * w + c < h * w := by
    have := pixel_index_lt w h r c hr hc
    rw [Nat.mul_comm w h] at this
    exact this
  have hp := hpts (r * w + c) hi
  dsimp only at hp
  rw [pixel_index_mod w r c hc, pixel_index_div w r c hc] at hp
  exact hp

/-- C1 amended, on the frame of width 2 and height 1 with depths `[0, 1000]`: exactly two
points, the first reconstructed from depth 0 and the second from depth 1000. -/
theorem depthToCloud_raster_witness :
    (depthToCloud sampleProj ((2 : Nat) : Int) ((1 : Nat) : Int) [0, 1000]).points.length
      = 2 * 1 ∧
    (depthToCloud sampleProj ((2 : Nat) : Int) ((1 : Nat) : Int) [0, 1000]).points[0 * 2 + 0]? =
      some { x := (sampleProj 0 0 0).z / 1000, y := -(sampleProj 0 0 0).x / 1000,
             z := (sampleProj 0 0 0).y / 1000 } ∧
    (depthToCloud sampleProj ((2 : Nat) : Int) ((1 : Nat) : Int) [0, 1000]).points[0 * 2 + 1]? =
      some { x := (sampleProj 1 0 1000).z / 1000, y := -(sampleProj 1 0 1000).x / 1000,
             z := (sampleProj 1 0 1000).y / 1000 } :=
  ⟨(depthToCloud_raster sampleProj 2 1 [0, 1000] (by decide) (by decide) (by decide)
      (by decide)).1,
   (depthToCloud_raster sampleProj 2 1 [0, 1000] (by decide) (by decide) (by decide)
      (by decide)).2 0 0 (by decide) (by decide),
   (depthToCloud_raster sampleProj 2 1 [0, 1000] (by decide) (by decide) (by decide)
      (by decide)).2 0 1 (by decide) (by decide)⟩

/-- C2. On the 1 x 1 frame whose pixel has red 10, green 20 and blue 30, `onNewRGBFrame`
produces an image of width 1, height 1, row stride 3 and encoding `rgb8` whose three data
bytes are 30, 20, 10: blue first and red last. -/
theorem onNewRGBFrame_blue_first :
    onNewRGBFrame ⟨1, 1, [{ red := 10, green := 20, blue := 30 }]⟩ =
      { width := 1, height := 1, encoding := "rgb8", is_bigendian := 0, step := 3,
        data := [30, 20, 10] } := by
  decide

/-- C3. When `id` occurs in the roster, `onLostUser` removes its first occurrence, keeps
every other entry in its original order, and publishes exactly one event, on the
person-disappeared topic, carrying `id` and the roster after the removal. -/
theorem onLostUser_present (s : NuitrackCore) (id : Int) (h : id ∈ s.current_user_list_) :
    (onLostUser s id).current_user_list_ = s.current_user_list_.erase id ∧
    (∃ l1 l2, s.current_user_list_ = l1 ++ id :: l2 ∧ id ∉ l1 ∧
      (onLostUser s id).current_user_list_ = l1 ++ l2) ∧
    (onLostUser s id).published =
      s.published ++
        [Published.person_disappeared ⟨id, (onLostUser s id).current_user_list_⟩] := by
  obtain ⟨l1, l2, hsplit, hnot⟩ := List.eq_append_cons_of_mem h
  have hloop : onLostUserLoop id s.current_user_list_ s.current_user_list_.length 0
      = (l1 ++ l2, true) := by
    rw [hsplit]
    have hl : (l1 ++ id :: l2).length = l1.length + 1 + l2.length := by
      simp; omega
    rw [hl]
    exact onLostUserLoop_present id l1 l2 hnot l1.length 0 (by omega)
  have hroster : (onLostUser s id).current_user_list_ = l1 ++ l2 := by
    simp [onLostUser, hloop]
  refine ⟨?_, ⟨l1, l2, hsplit, hnot, hroster⟩, ?_⟩
  · rw [hroster, hsplit, List.erase_append_right _ hnot, List.erase_cons_head]
  · rw [hroster]
    simp [onLostUser, hloop]

/-- C3, on the roster `[5, 7, 5]` and id 5. -/
theorem onLostUser_present_witness :
    (onLostUser { fresh with current_user_list_ := [5, 7, 5] } 5).current_user_list_ = [7, 5] ∧
    (onLostUser { fresh with current_user_list_ := [5, 7, 5] } 5).published =
      [Published.person_disappeared ⟨5, [7, 5]⟩] := by
  have h := onLostUser_present { fresh with current_user_list_ := [5, 7, 5] } 5 (by decide)
  refine ⟨h.1, ?_⟩
  rw [h.2.2, h.1]
  rfl

/-- C4. When `id` does not occur in the roster, `onLostUser` publishes nothing and leaves
the roster (and every other member) as it was. -/
theorem onLostUser_absent (s : NuitrackCore) (id : Int) (h : id ∉ s.current_user_list_) :
    (onLostUser s id).published = s.published ∧
    (onLostUser s id).current_user_list_ = s.current_user_list_ ∧
    onLostUser s id = s := by
  have hloop := onLostUserLoop_absent id s.current_user_list_ h s.current_user_list_.length 0
  have hs : onLostUser s id = s := by
    simp [onLostUser, hloop]
  rw [hs]
  exact ⟨rfl, rfl, rfl⟩

/-- C4, for `disappear(99)` on the empty roster: zero events. -/
theorem onLostUser_absent_witness :
    (onLostUser fresh 99).published = [] ∧ (onLostUser fresh 99).current_user_list_ = [] :=
  ⟨(onLostUser_absent fresh 99 (by decide)).1, (onLostUser_absent fresh 99 (by decide)).2.1⟩

/-- C5. For every roster and every id, present or not, `onNewUser` appends the id at the end
of the roster and publishes exactly one event, on the person-appeared topic, carrying the
id and the full updated roster. -/
theorem onNewUser_appends (s : NuitrackCore) (id : Int) :
    (onNewUser s id).current_user_list_ = s.current_user_list_ ++ [id] ∧
    (onNewUser s id).published =
      s.published ++ [Published.person_appeared ⟨id, s.current_user_list_ ++ [id]⟩] :=
  ⟨rfl, rfl⟩

/-- C6, as stated, fails: after `appear(5), appear(7), disappear(5)` from the empty roster
it is not the case that the roster is `[7]`, exactly two events were emitted and the
second has trigger id 5 and roster `[7]`. -/
theorem presence_sequence_not_two_events :
    ¬ ((notifyAll fresh
          [Notification.appear 5, Notification.appear 7, Notification.disappear 5]
        ).current_user_list_ = [7] ∧
       (notifyAll fresh
          [Notification.appear 5, Notification.appear 7, Notification.disappear 5]
        ).published.length = 2 ∧
       ((notifyAll fresh
          [Notification.appear 5, Notification.appear 7, Notification.disappear 5]
        ).published[1]?).map Published.msg = some ⟨5, [7]⟩) := by
  decide

/-- C6, amended. After `appear(5), appear(7), disappear(5)` from the empty roster the
roster is `[7]` and exactly three events were emitted: the appear events `{5, [5]}` and
`{7, [5, 7]}`, then the disappear event with trigger id 5 and roster `[7]`. -/
theorem presence_sequence_three_events :
    (notifyAll fresh
        [Notification.appear 5, Notification.appear 7, Notification.disappear 5]
      ).current_user_list_ = [7] ∧
    (notifyAll fresh
        [Notification.appear 5, Notification.appear 7, Notification.disappear 5]
      ).published =
      [Published.person_appeared ⟨5, [5]⟩, Published.person_appeared ⟨7, [5, 7]⟩,
       Published.person_disappeared ⟨5, [7]⟩] := by
  decide

/-- C7. When the vendor joint constants increase in the declared order of the joint list,
`onSkeletonUpdate` produces one entry per tracked skeleton, in input order; each entry
carries the skeleton id and three sequences of length 20; the names are the 20 names of
the joint table, each once, in declared order; and the k-th name, the k-th confidence and
the k-th pose position all belong to the k-th joint of the table. -/
theorem onSkeletonUpdate_joint_table {α M : Type} (code : JointType → Int)
    (hcode : (jointOrder.map code).Pairwise (· < ·)) (mRot2Quat : M → Fin 4 → α)
    (skeletons : List (Skeleton α M)) :
    (onSkeletonUpdate code mRot2Quat skeletons).length = skeletons.length ∧
    ∀ (i : Nat) (sk : Skeleton α M), skeletons[i]? = some sk →
      ∃ d, (onSkeletonUpdate code mRot2Quat skeletons)[i]? = some d ∧
        d.id = sk.id ∧
        d.joints =
          ["joint_head", "joint_neck", "joint_torso", "joint_waist",
           "joint_left_collar", "joint_left_shoulder", "joint_left_elbow",
           "joint_left_wrist", "joint_left_hand",
           "joint_right_collar", "joint_right_shoulder", "joint_right_elbow",
           "joint_right_wrist", "joint_right_hand",
           "joint_left_hip", "joint_left_knee", "joint_left_ankle",
           "joint_right_hip", "joint_right_knee", "joint_right_ankle"] ∧
        d.joints.Nodup ∧
        d.joints.length = 20 ∧ d.confidences.length = 20 ∧ d.joint_pose.length = 20 ∧
        ∀ (k : Nat) (j : JointType) (name : String), jointNamesInit[k]? = some (j, name) →
          d.joints[k]? = some name ∧
          d.confidences[k]? = some (sk.joints (code j)).confidence ∧
          (d.joint_pose[k]?).map Pose.position = some (sk.joints (code j)).real := by
  rw [onSkeletonUpdate_eq_map code hcode]
  refine ⟨by simp, ?_⟩
  intro i sk hsk
  have hnodup : (jointNamesInit.map Prod.snd).Nodup := by decide
  refine ⟨skeletonEntry code mRot2Quat sk, by simp [hsk], rfl, rfl, hnodup, rfl, rfl, rfl, ?_⟩
  intro k j name hk
  simp [skeletonEntry, hk]

/-- C7, on one skeleton and the joint constants of the vendor SDK header. -/
theorem onSkeletonUpdate_joint_table_witness :
    (jointOrder.map sdkJointCode).Pairwise (· < ·) ∧
    (onSkeletonUpdate sdkJointCode (fun (_ : Unit) _ => (0 : Int)) [sampleSkeleton]).length
      = [sampleSkeleton].length :=
  ⟨by decide,
   (onSkeletonUpdate_joint_table sdkJointCode (by decide) (fun (_ : Unit) _ => (0 : Int))
      [sampleSkeleton]).1⟩

/-- C8. On a running node whose roster is `[5]`, with an engine that restarts without any
fault, `reset` ends in the Running state with a started timer and the roster still `[5]`,
while the constructor on the same engine ends with the empty roster. -/
theorem reset_keeps_roster :
    (∃ s, reset healthyEngine trackingFive = Outcome.running s ∧
      s.timer_.started = true ∧ s.current_user_list_ = [5] ∧ s.current_user_list_ ≠ []) ∧
    (∃ s, NuitrackCore.NuitrackCore healthyEngine = Outcome.running s ∧
      s.timer_.started = true ∧ s.current_user_list_ = []) :=
  ⟨⟨_, rfl, rfl, rfl, by decide⟩, ⟨_, rfl, rfl, rfl⟩⟩

/-- C9, as stated, fails: on a running node, when the colour advance raises the licensing
fault and `Nuitrack::run` raises a fault during the reset, only the colour advance was
requested, `reset` was called, and the tick ends aborted, not Running. -/
theorem timerCallback_license_then_abort :
    licenseThenRunFails.update Subsystem.colorSensor = UpdateResult.licenseNotAcquired ∧
    (timerCallback licenseThenRunFails trackingFive).requested = [Subsystem.colorSensor] ∧
    (timerCallback licenseThenRunFails trackingFive).resetCalled = true ∧
    (timerCallback licenseThenRunFails trackingFive).outcome = Outcome.aborted ∧
    (timerCallback licenseThenRunFails trackingFive).outcome.isRunning = false := by
  decide

/-- C9, amended. In every tick the advances are requested in the order colour, depth, user,
skeleton, up to and including the first one that raises a fault: the requested advances
are a non-empty prefix of that list and every one of them but the last returned normally.
If a requested advance raises the licensing fault, `reset` is called on the members as the
callbacks of the requested advances left them, and the tick ends as `reset` ends: Running
when `Nuitrack::run` succeeds there, aborted when it raises a fault. If a requested advance
raises any other engine fault, the tick ends aborted and `reset` is not called. If no
requested advance raises a fault, all four were requested, `reset` is not called and the
node keeps running, with its members as the callbacks of the four advances left them. -/
theorem timerCallback_faults (eng : Engine) (s : NuitrackCore) :
    (timerCallback eng s).requested <+:
      [Subsystem.colorSensor, Subsystem.depthSensor, Subsystem.userTracker,
       Subsystem.skeletonTracker] ∧
    (timerCallback eng s).requested ≠ [] ∧
    (∀ sub ∈ (timerCallback eng s).requested.dropLast, eng.update sub = UpdateResult.ok) ∧
    (∀ sub ∈ (timerCallback eng s).requested,
      eng.update sub = UpdateResult.licenseNotAcquired →
        (timerCallback eng s).resetCalled = true ∧
        (timerCallback eng s).outcome =
          reset eng (callbacksOf eng (timerCallback eng s).requested s) ∧
        (eng.runThrows = false → (timerCallback eng s).outcome.isRunning = true) ∧
        (eng.runThrows = true → (timerCallback eng s).outcome = Outcome.aborted)) ∧
    (∀ sub ∈ (timerCallback eng s).requested,
      eng.update sub = UpdateResult.otherException →
        (timerCallback eng s).outcome = Outcome.aborted ∧
        (timerCallback eng s).resetCalled = false) ∧
    ((∀ sub ∈ (timerCallback eng s).requested, eng.update sub = UpdateResult.ok) →
      (timerCallback eng s).requested =
        [Subsystem.colorSensor, Subsystem.depthSensor, Subsystem.userTracker,
         Subsystem.skeletonTracker] ∧
      (timerCallback eng s).resetCalled = false ∧
      (timerCallback eng s).outcome =
        Outcome.running
          (notifyAll (notifyAll (notifyAll (notifyAll s
            (eng.delivered Subsystem.colorSensor)) (eng.delivered Subsystem.depthSensor))
            (eng.delivered Subsystem.userTracker)) (eng.delivered Subsystem.skeletonTracker))) := by
  have hreset1 : ∀ t, eng.runThrows = false → (reset eng t).isRunning = true := by
    intro t h; simp [reset, h, Outcome.isRunning, createTimer]
  have hreset2 : ∀ t, eng.runThrows = true → reset eng t = Outcome.aborted := by
    intro t h; simp [reset, h]
  cases ha : eng.update Subsystem.colorSensor <;>
  cases hb : eng.update Subsystem.depthSensor <;>
  cases hc : eng.update Subsystem.userTracker <;>
  cases hd : eng.update Subsystem.skeletonTracker <;>
    simp [timerCallback, callbacksOf, tryUpdates, updateOrder, ha, hb, hc, hd,
      List.prefix_iff_eq_take] <;>
    exact ⟨hreset1 _, hreset2 _⟩

/-- C9 amended, on a tick whose user advance announces user 7 and then raises the licensing
fault, and whose restart succeeds: exactly the colour, depth and user advances were
requested, `reset` was called, and the node is Running with the roster `[5, 7]`. -/
theorem timerCallback_faults_witness :
    (timerCallback licenseThenRestarts trackingFive).requested =
      [Subsystem.colorSensor, Subsystem.depthSensor, Subsystem.userTracker] ∧
    licenseThenRestarts.update Subsystem.userTracker = UpdateResult.licenseNotAcquired ∧
    (timerCallback licenseThenRestarts trackingFive).resetCalled = true ∧
    (timerCallback licenseThenRestarts trackingFive).outcome =
      reset licenseThenRestarts
        (callbacksOf licenseThenRestarts
          (timerCallback licenseThenRestarts trackingFive).requested trackingFive) ∧
    (callbacksOf licenseThenRestarts
      (timerCallback licenseThenRestarts trackingFive).requested
      trackingFive).current_user_list_ = [5, 7] ∧
    (timerCallback licenseThenRestarts trackingFive).outcome.isRunning = true :=
  ⟨by decide, by decide,
   ((timerCallback_faults licenseThenRestarts trackingFive).2.2.2.1 Subsystem.userTracker
      (by decide) (by decide)).1,
   ((timerCallback_faults licenseThenRestarts trackingFive).2.2.2.1 Subsystem.userTracker
      (by decide) (by decide)).2.1,
   by decide,
   ((timerCallback_faults licenseThenRestarts trackingFive).2.2.2.1 Subsystem.userTracker
      (by decide) (by decide)).2.2.1 rfl⟩

/-- C10. The period handed to the timer by the constructor and by `reset` is the integer
quotient `1/30`, which is 0 seconds and not one thirtieth of a second. -/
theorem timer_period_zero :
    timerPeriod = 0 ∧ timerPeriod ≠ 1 / 30 ∧
    (∃ s, NuitrackCore.NuitrackCore healthyEngine = Outcome.running s ∧ s.timer_.period = 0) ∧
    (∃ s, reset healthyEngine trackingFive = Outcome.running s ∧ s.timer_.period = 0) := by
  have h0 : timerPeriod = 0 := by
    simp [timerPeriod, Int.tdiv]
  refine ⟨h0, ?_, ⟨_, rfl, h0⟩, ⟨_, rfl, h0⟩⟩
  rw [h0]
  norm_num

end NuitrackRos
